import Mathlib

/-!
Shallow embedding of the `worker` pallet of `substrate-rainbow-bridge`
(`src/pallets/worker/src/lib.rs`) and verification of the spec's claims
about it.

Modelling conventions:
* Machine integers (`u64`, `u32`, `U256`, `H128`, `H256`, `T::Threshold`)
  are modelled as `Nat`; wrap-around is written explicitly (`% 2 ^ 32`)
  where the source truncates (`low_u32`).
* Substrate storage maps (`decl_storage!` maps) are association lists with
  explicit `mapInsert` / `mapGet`.
* A Rust `panic!` / `.unwrap()` on a failure value is modelled as an
  explicit `panic` constructor of the operation's outcome type, carrying
  the storage overlay as written up to the panic point.
* External crates (`rlp`/`ethereum` header codec, `hex`, `lite_json`'s
  parser, the HTTP host functions) are collaborators outside `src/`; their
  interfaces are modelled at the boundary the pallet code uses them.
-/

namespace RainbowBridge

/-- Update of an association list modelling a substrate storage-map
`insert`: overwrite the value at the key if present, otherwise append. -/
def mapInsert {α β : Type} [DecidableEq α] (m : List (α × β)) (k : α) (v : β) :
    List (α × β) :=
  match m with
  | [] => [(k, v)]
  | (k', v') :: rest => if k' = k then (k, v) :: rest else (k', v') :: mapInsert rest k v

/-- Lookup in an association list modelling a storage-map `get`. -/
def mapGet {α β : Type} [DecidableEq α] (m : List (α × β)) (k : α) : Option β :=
  (m.find? (fun kv => kv.1 = k)).map (fun kv => kv.2)

/-- Model of `ethereum::Header` (external crate): the fields the pallet
reads (`parent_hash`, `difficulty`, `number`) plus an opaque `extra`
component standing for the remaining header fields, so that distinct
headers can have distinct digests. -/
structure EthHeader where
  parent_hash : Nat
  difficulty : Nat
  number : Nat
  extra : Nat
  deriving DecidableEq, Repr

/-- Model of `ethereum::Header::hash()` (keccak of the RLP encoding):
an injective function of the header contents standing in for the digest. -/
def ethHash (h : EthHeader) : Nat :=
  Nat.pair (Nat.pair h.parent_hash h.difficulty) (Nat.pair h.number h.extra)

/-- Model of the external RLP header codec's encoder (`rlp::encode`):
an injective serialization of the modelled header fields. -/
def rlpEncode (h : EthHeader) : List Nat :=
  [h.parent_hash, h.difficulty, h.number, h.extra]

/-- Model of `rlp::decode::<ethereum::Header>` (external crate): partial
inverse of `rlpEncode`; any payload that is not an encoding of a header
fails to decode (`none`). -/
def rlpDecode (payload : List Nat) : Option EthHeader :=
  match payload with
  | [p, d, n, e] => some ⟨p, d, n, e⟩
  | _ => none

/-- `HeaderInfo` from `lib.rs` lines 99-104: minimal information about a
header (`total_difficulty`, `parent_hash`, `number`). -/
structure HeaderInfo where
  total_difficulty : Nat
  parent_hash : Nat
  number : Nat
  deriving DecidableEq, Repr

/-- The pallet's storage (`decl_storage!`, `lib.rs` lines 106-143).
`Option`-valued items default to `none`; `BestHeaderHash` (a plain `H256`)
defaults to the zero hash; `Vec` and map items default to empty. -/
structure ChainState where
  dags_start_epoch : Option Nat
  dags_merkle_roots : List Nat
  best_header_hash : Nat
  hashes_gc_threshold : Option Nat
  finalized_gc_threshold : Option Nat
  num_confirmations : Option Nat
  canonical_header_hashes : List (Nat × Nat)
  all_header_hashes : List (Nat × List Nat)
  headers : List (Nat × EthHeader)
  infos : List (Nat × HeaderInfo)
  trusted_signer : Option Nat
  deriving DecidableEq, Repr

/-- Genesis storage: every item at its default value. -/
def initialChainState : ChainState :=
  { dags_start_epoch := none
    dags_merkle_roots := []
    best_header_hash := 0
    hashes_gc_threshold := none
    finalized_gc_threshold := none
    num_confirmations := none
    canonical_header_hashes := []
    all_header_hashes := []
    headers := []
    infos := []
    trusted_signer := none }

/-- Outcome of a dispatchable call: `ok` with the updated storage, `err`
with a `DispatchError` message and the storage as left by the call (the
`ensure!` macros return before any write), or `panic` with the storage
overlay as written up to the panicking expression. -/
inductive DispatchOutcome where
  | ok (s : ChainState)
  | err (msg : String) (s : ChainState)
  | panic (s : ChainState)
  deriving DecidableEq, Repr

/-- Whether a dispatch outcome is a success. -/
def DispatchOutcome.isOk : DispatchOutcome → Bool
  | .ok _ => true
  | _ => false

/-- `fn init` (`lib.rs` lines 159-195). `origin` is modelled as
`Option Nat`: `some who` for a signed origin (`ensure_signed` succeeds),
`none` otherwise. The three `ensure!(... .is_none(), "Already initialized")`
guards run first; then all scalar storage items are set; then the genesis
payload is decoded with `rlp::decode(...).unwrap()` — a decode failure
panics at that point, after the scalar writes; on success the header's
hash is installed as best, as the sole entry of both hash maps at its
height, and its `Header`/`HeaderInfo` are inserted under its hash. -/
def init (origin : Option Nat) (dags_start_epoch : Nat) (dags_merkle_roots : List Nat)
    (first_header : List Nat) (hashes_gc_threshold : Nat) (finalized_gc_threshold : Nat)
    (num_confirmations : Nat) (trusted_signer : Option Nat) (s : ChainState) :
    DispatchOutcome :=
  match origin with
  | none => .err "BadOrigin" s
  | some _ =>
    if s.dags_start_epoch.isSome then .err "Already initialized" s
    else if s.hashes_gc_threshold.isSome then .err "Already initialized" s
    else if s.finalized_gc_threshold.isSome then .err "Already initialized" s
    else
      let s1 : ChainState :=
        { s with
          dags_start_epoch := some dags_start_epoch
          dags_merkle_roots := dags_merkle_roots
          hashes_gc_threshold := some hashes_gc_threshold
          finalized_gc_threshold := some finalized_gc_threshold
          num_confirmations := some num_confirmations
          trusted_signer := trusted_signer }
      match rlpDecode first_header with
      | none => .panic s1
      | some header =>
        let header_hash := ethHash header
        let header_number := header.number
        .ok { s1 with
              best_header_hash := header_hash
              all_header_hashes := mapInsert s1.all_header_hashes header_number [header_hash]
              canonical_header_hashes :=
                mapInsert s1.canonical_header_hashes header_number header_hash
              headers := mapInsert s1.headers header_hash header
              infos := mapInsert s1.infos header_hash
                ⟨header.difficulty, header.parent_hash, header.number⟩ }

/-- Outcome of `dag_merkle_root`: either a root value or a panic
(arithmetic underflow of the `u64` subtraction, or `Vec` indexing out of
bounds). -/
inductive DagRootOutcome where
  | ok (root : Nat)
  | panic
  deriving DecidableEq, Repr

/-- `pub fn dag_merkle_root` (`lib.rs` lines 244-250):
`Self::dags_merkle_roots()[(epoch - ep) as usize]` when
`dags_start_epoch` is `Some ep`, `H128::zero()` when it is `None`.
When `epoch < ep` the `u64` subtraction underflows (a panic under
overflow checks; under wrapping semantics the wrapped index exceeds any
`Vec` length and the indexing panics), and when the index is not below
the length of the roots vector the indexing panics — both are modelled
as `panic`. -/
def dag_merkle_root (s : ChainState) (epoch : Nat) : DagRootOutcome :=
  match s.dags_start_epoch with
  | some ep =>
    if epoch < ep then .panic
    else if h : epoch - ep < s.dags_merkle_roots.length then
      .ok (s.dags_merkle_roots.get ⟨epoch - ep, h⟩)
    else .panic
  | none => .ok 0

/-- Model of `lite_json::json::JsonValue` (external crate): the variants
the pallet inspects. Keys and string contents are Rust `char` sequences. -/
inductive Json where
  | object (fields : List (List Char × Json))
  | array (items : List Json)
  | string (chars : List Char)
  | number (n : Int)
  | boolean (b : Bool)
  | null

/-- `c as u8` in Rust: the code point truncated to the low 8 bits. -/
def charAsU8 (c : Char) : Nat := c.toNat % 256

/-- `k.iter().map(|c| *c as u8).collect::<Vec<u8>>()` applied to a key or
string of Rust chars. -/
def charsToBytes (cs : List Char) : List Nat := cs.map charAsU8

/-- Model of `hex::FromHexError` (external crate), the two variants a
decode can produce here. -/
inductive FromHexError where
  | invalidHexCharacter
  | oddLength
  deriving DecidableEq, Repr

/-- Value of one hex-digit byte as `hex::decode` reads it: `0-9`, `a-f`,
`A-F`; anything else is invalid. -/
def hexDigitVal (b : Nat) : Option Nat :=
  if 48 ≤ b ∧ b ≤ 57 then some (b - 48)
  else if 97 ≤ b ∧ b ≤ 102 then some (b - 87)
  else if 65 ≤ b ∧ b ≤ 70 then some (b - 55)
  else none

/-- Pair-at-a-time body of `hex::decode` on an even-length byte string. -/
def hexDecodeBody : List Nat → Except FromHexError (List Nat)
  | [] => .ok []
  | [_] => .error .oddLength
  | a :: b :: rest =>
    match hexDigitVal a, hexDigitVal b with
    | some ha, some hb => (hexDecodeBody rest).map (fun t => (ha * 16 + hb) :: t)
    | _, _ => .error .invalidHexCharacter

/-- Model of `hex::decode` (external crate): odd-length input is an
error, otherwise each pair of hex-digit bytes becomes one output byte. -/
def hexDecode (v : List Nat) : Except FromHexError (List Nat) :=
  if v.length % 2 = 1 then .error .oddLength else hexDecodeBody v

/-- `fn hex_to_bytes` (`lib.rs` lines 229-237): drop a leading `"0x"`
when the input has length at least 2 and starts with `'0'`, `'x'`; map
the remaining chars to bytes with `*c as u8`; `hex::decode` the result. -/
def hex_to_bytes (v : List Char) : Except FromHexError (List Nat) :=
  let v2 := if 2 ≤ v.length ∧ v[0]? = some '0' ∧ v[1]? = some 'x' then v.drop 2 else v
  hexDecode (charsToBytes v2)

/-- Big-endian interpretation of a byte string, as
`U256::from_big_endian` computes it (the `uint` crate asserts the slice
fits in 32 bytes; longer slices panic, handled at the call site model). -/
def bigEndian (bytes : List Nat) : Nat :=
  bytes.foldl (fun acc b => acc * 256 + b) 0

/-- Outcome of `fn fetch_block`'s response handling: the returned `u32`,
or a panic from one of its `.unwrap()` calls (or the `from_big_endian`
length assertion). -/
inductive FetchOutcome where
  | ok (n : Nat)
  | panic
  deriving DecidableEq, Repr

/-- The key bytes `b"result"`. -/
def resultKeyBytes : List Nat := [114, 101, 115, 117, 108, 116]

/-- The key bytes `b"number"`. -/
def numberKeyBytes : List Nat := [110, 117, 109, 98, 101, 114]

/-- Response-decoding pipeline of `fn fetch_block` (`lib.rs` lines
295-329), starting from the parsed body: `parsed` is the result of
`lite_json::parse_json` on the UTF-8 body (`none` when parsing — or the
earlier transport/UTF-8 step — failed, in which case the code's
`.unwrap()` panics). On a parsed value: take the first field of the
top-level object whose key bytes equal `b"result"` and require its value
to be an object; panic (`block.unwrap()`) otherwise. In that object take
the first field whose key bytes equal `b"number"` and require a string;
panic otherwise. Run `hex_to_bytes` on it, panicking on a hex error, and
return `U256::from_big_endian(&bytes).low_u32()` — a panic when the byte
string exceeds 32 bytes (the `uint` crate's length assertion), otherwise
the big-endian value truncated to its low 32 bits. -/
def fetch_block_decode (parsed : Option Json) : FetchOutcome :=
  match parsed with
  | none => .panic
  | some val =>
    let block : Option (List (List Char × Json)) :=
      match val with
      | .object obj =>
        (obj.find? (fun kv => charsToBytes kv.1 = resultKeyBytes)).bind
          (fun kv =>
            match kv.2 with
            | .object b => some b
            | _ => none)
      | _ => none
    match block with
    | none => .panic
    | some b =>
      let number_hex : Option (List Char) :=
        (b.find? (fun kv => charsToBytes kv.1 = numberKeyBytes)).bind
          (fun kv =>
            match kv.2 with
            | .string n => some n
            | _ => none)
      match number_hex with
      | none => .panic
      | some nh =>
        match hex_to_bytes nh with
        | .error _ => .panic
        | .ok bytes =>
          if bytes.length ≤ 32 then .ok (bigEndian bytes % 2 ^ 32) else .panic

/-- The deadline argument of the single wait on the pending HTTP response
in `fn fetch_block` (`lib.rs` lines 289-290): `pending.wait()` passes no
deadline (the source comment reads `wait indefinitely for response
(TODO: timeout)`), so the modelled wait call carries `none`. -/
def fetch_block_wait_deadline : Option Nat := none

/-- Outcome of one `offchain_worker` run (per-tick relay cycle). -/
inductive WorkerOutcome where
  | ok
  | panic
  deriving DecidableEq, Repr

/-- `fn offchain_worker` (`lib.rs` lines 207-225):
`let number = Self::fetch_block().unwrap();` — a panic inside
`fetch_block` propagates (and an error return would be unwrapped into a
panic too); on success the worker only logs and returns. -/
def offchain_worker (parsed : Option Json) : WorkerOutcome :=
  match fetch_block_decode parsed with
  | .ok _ => .ok
  | .panic => .panic

/-- Model of `sp_runtime::transaction_validity::TransactionSource`. -/
inductive TransactionSource where
  | inBlock
  | local
  | external
  deriving DecidableEq, Repr

/-- Model of the pallet's `Call` enum (the dispatchables declared in
`decl_module!`): `init` with its arguments. -/
inductive WorkerCall where
  | init (dags_start_epoch : Nat) (dags_merkle_roots : List Nat)
      (first_header : List Nat) (hashes_gc_threshold : Nat)
      (finalized_gc_threshold : Nat) (num_confirmations : Nat)
      (trusted_signer : Option Nat)
  deriving DecidableEq

/-- Model of `sp_runtime::transaction_validity::ValidTransaction`. -/
structure ValidTransaction where
  priority : Nat
  requires : List (List Nat)
  provides : List (List Nat)
  longevity : Nat
  propagate : Bool
  deriving DecidableEq, Repr

/-- `fn validate_unsigned` (`lib.rs` lines 342-362): ignores both the
source and the call (they are bound as `_source`, `_call`) and reads no
storage; it unconditionally builds a `ValidTransaction` with the
configured `UnsignedPriority`, longevity 5 and `propagate = true`
(no `and_provides` is called, so the provides list stays empty). -/
def validate_unsigned (unsignedPriority : Nat) (_source : TransactionSource)
    (_call : WorkerCall) : Except Unit ValidTransaction :=
  .ok { priority := unsignedPriority
        requires := []
        provides := []
        longevity := 5
        propagate := true }

/-- Whether the transaction-admission logic accepts an unsigned
submission arriving at local block `b` (the block argument is unused
because `validate_unsigned` reads no state and receives no block
context). -/
def acceptsUnsignedAt (unsignedPriority : Nat) (_b : Nat) (source : TransactionSource)
    (call : WorkerCall) : Bool :=
  (validate_unsigned unsignedPriority source call).toBool

/-- The cooldown property claimed of the admission logic, in the spec's
words (refinement target, not translated from the source): within
`interval` blocks of an accepted unsigned submission, no further
unsigned submission is accepted, across all relay identities. -/
def unsignedCooldownRespected (unsignedPriority interval : Nat) : Prop :=
  ∀ (b1 b2 : Nat) (s1 s2 : TransactionSource) (c1 c2 : WorkerCall),
    b1 < b2 → b2 < b1 + interval →
    acceptsUnsignedAt unsignedPriority b1 s1 c1 = true →
    acceptsUnsignedAt unsignedPriority b2 s2 c2 = false

/-- Reference value of one hex digit char (spec side: the digit's value). -/
def hexVal (c : Char) : Nat := (hexDigitVal (charAsU8 c)).getD 0

/-- Whether a char is a hex digit as `hex::decode` accepts it. -/
def isHexDigitChar (c : Char) : Bool := (hexDigitVal (charAsU8 c)).isSome

/-- Reference big-endian value of a hex numeral (spec side: the integer
denoted by the digit string). -/
def hexCharsVal (ds : List Char) : Nat :=
  ds.foldl (fun acc c => acc * 16 + hexVal c) 0

/-- Reference byte string of an even-length hex numeral: one byte per
digit pair. -/
def hexBytes : List Char → List Nat
  | a :: b :: rest => (hexVal a * 16 + hexVal b) :: hexBytes rest
  | _ => []

/-- A well-formed fetch response body as the spec describes it: a JSON
object whose `result` object holds the `number` string. -/
def wellFormedResp (numStr : List Char) : Json :=
  Json.object
    [(['r', 'e', 's', 'u', 'l', 't'],
      Json.object [(['n', 'u', 'm', 'b', 'e', 'r'], Json.string numStr)])]

/-! ### Helper lemmas -/

theorem mapGet_mapInsert_self {α β : Type} [DecidableEq α]
    (m : List (α × β)) (k : α) (v : β) : mapGet (mapInsert m k v) k = some v := by
  induction m with
  | nil => simp [mapInsert, mapGet, List.find?]
  | cons kv rest ih =>
    obtain ⟨k', v'⟩ := kv
    by_cases hk : k' = k
    · subst hk
      simp [mapInsert, mapGet, List.find?]
    · simp only [mapInsert, if_neg hk]
      simpa [mapGet, List.find?, hk] using ih

theorem hexDecodeBody_map (ds : List Char)
    (hhex : ds.all isHexDigitChar = true) (heven : ds.length % 2 = 0) :
    hexDecodeBody (charsToBytes ds) = .ok (hexBytes ds) := by
  induction ds using hexBytes.induct with
  | case1 a b rest ih =>
    simp only [List.all_cons, Bool.and_eq_true] at hhex
    obtain ⟨ha, hb, hrest⟩ := hhex
    obtain ⟨va, hva⟩ := Option.isSome_iff_exists.mp ha
    obtain ⟨vb, hvb⟩ := Option.isSome_iff_exists.mp hb
    have heven2 : rest.length % 2 = 0 := by
      simp only [List.length_cons] at heven
      omega
    simp only [charsToBytes, List.map_cons, hexDecodeBody, hva, hvb, hexBytes]
    rw [show List.map charAsU8 rest = charsToBytes rest from rfl,
      ih hrest heven2]
    simp [hexVal, hva, hvb, Except.map]
  | case2 ds h1 =>
    match ds with
    | [] => simp [charsToBytes, hexDecodeBody, hexBytes]
    | [c] => simp at heven
    | a :: b :: rest => exact absurd rfl (h1 a b rest)

theorem hexBytes_foldl (ds : List Char) (heven : ds.length % 2 = 0) (acc : Nat) :
    (hexBytes ds).foldl (fun a b => a * 256 + b) acc =
      ds.foldl (fun a c => a * 16 + hexVal c) acc := by
  induction ds using hexBytes.induct generalizing acc with
  | case1 a b rest ih =>
    have heven2 : rest.length % 2 = 0 := by
      simp only [List.length_cons] at heven
      omega
    simp only [hexBytes, List.foldl_cons]
    rw [ih heven2]
    congr 1
    ring
  | case2 ds h1 =>
    match ds with
    | [] => simp [hexBytes]
    | [c] => simp at heven
    | a :: b :: rest => exact absurd rfl (h1 a b rest)

theorem hexBytes_length (ds : List Char) (heven : ds.length % 2 = 0) :
    (hexBytes ds).length = ds.length / 2 := by
  induction ds using hexBytes.induct with
  | case1 a b rest ih =>
    have heven2 : rest.length % 2 = 0 := by
      simp only [List.length_cons] at heven
      omega
    simp only [hexBytes, List.length_cons, ih heven2]
    omega
  | case2 ds h1 =>
    match ds with
    | [] => simp [hexBytes]
    | [c] => simp at heven
    | a :: b :: rest => exact absurd rfl (h1 a b rest)

/-- The decode pipeline on a well-formed response whose number string is
`"0x"` followed by an even number (at most 64) of hex digits: the result
is the numeral's big-endian value truncated to 32 bits. -/
theorem fetch_decode_wellFormed (ds : List Char)
    (hhex : ds.all isHexDigitChar = true)
    (heven : ds.length % 2 = 0) (hlen : ds.length ≤ 64) :
    fetch_block_decode (some (wellFormedResp ('0' :: 'x' :: ds))) =
      .ok (hexCharsVal ds % 2 ^ 32) := by
  have h1 : fetch_block_decode (some (wellFormedResp ('0' :: 'x' :: ds))) =
      match hex_to_bytes ('0' :: 'x' :: ds) with
      | .error _ => .panic
      | .ok bytes => if bytes.length ≤ 32 then .ok (bigEndian bytes % 2 ^ 32) else .panic :=
    rfl
  have hcond : 2 ≤ ('0' :: 'x' :: ds).length ∧ ('0' :: 'x' :: ds)[0]? = some '0' ∧
      ('0' :: 'x' :: ds)[1]? = some 'x' := ⟨by simp, by simp, by simp⟩
  have h2 : hex_to_bytes ('0' :: 'x' :: ds) = hexDecode (charsToBytes ds) := by
    simp only [hex_to_bytes, if_pos hcond, List.drop_succ_cons, List.drop_zero]
  have h3 : hexDecode (charsToBytes ds) = .ok (hexBytes ds) := by
    unfold hexDecode
    rw [if_neg (by simp [charsToBytes, heven]), hexDecodeBody_map ds hhex heven]
  have h4 : (hexBytes ds).length ≤ 32 := by
    rw [hexBytes_length ds heven]
    omega
  rw [h1, h2, h3]
  simp only [if_pos h4]
  rw [show bigEndian (hexBytes ds) = hexCharsVal ds from hexBytes_foldl ds heven 0]

/-! ### Claims -/

/-- C1 (counterexample): `init` does not fail with `InvalidThresholds`
when `finalizedGCThreshold < hashesGCThreshold`: a concrete call with
`finalized_gc_threshold = 5 < 10 = hashes_gc_threshold` on fresh storage
with a decodable genesis payload succeeds. -/
theorem init_invalid_thresholds_counterexample :
    5 < 10 ∧
      (init (some 1) 0 [] [0, 100, 0, 7] 10 5 1 none initialChainState).isOk = true := by
  constructor
  · decide
  · rfl

/-- C1 (amended): `init` performs no ordering check on the two GC
thresholds: with a signed origin, fresh storage and a decodable genesis
payload, the call succeeds even when the supplied
`finalized_gc_threshold` is strictly less than the supplied
`hashes_gc_threshold`. -/
theorem init_accepts_inverted_thresholds (who e h f n : Nat)
    (roots payload : List Nat) (hdr : EthHeader) (ts : Option Nat) (s : ChainState)
    (h1 : s.dags_start_epoch = none) (h2 : s.hashes_gc_threshold = none)
    (h3 : s.finalized_gc_threshold = none)
    (hdec : rlpDecode payload = some hdr) (hlt : f < h) :
    (init (some who) e roots payload h f n ts s).isOk = true := by
  simp [init, h1, h2, h3, hdec, DispatchOutcome.isOk]

/-- C1 (witness). -/
theorem init_accepts_inverted_thresholds_witness :
    (initialChainState.dags_start_epoch = none ∧
      initialChainState.hashes_gc_threshold = none ∧
      initialChainState.finalized_gc_threshold = none ∧
      rlpDecode [3, 4, 5, 6] = some ⟨3, 4, 5, 6⟩ ∧ 2 < 7) ∧
    (init (some 1) 0 [] [3, 4, 5, 6] 7 2 1 none initialChainState).isOk = true :=
  ⟨⟨rfl, rfl, rfl, rfl, by decide⟩,
    init_accepts_inverted_thresholds 1 0 7 2 1 [] [3, 4, 5, 6] ⟨3, 4, 5, 6⟩ none
      initialChainState rfl rfl rfl rfl (by decide)⟩

/-- C2 (counterexample): on an undecodable genesis payload (`[]`), `init`
does not fail with a `MalformedGenesis` error: it panics at the
`rlp::decode(...).unwrap()`, and the storage overlay at the panic point
already holds all the scalar fields written before the decode — so the
failing call is neither an error return nor state-preserving. -/
theorem init_malformed_genesis_counterexample :
    init (some 1) 3 [5] [] 10 20 1 (some 9) initialChainState =
      DispatchOutcome.panic
        { dags_start_epoch := some 3
          dags_merkle_roots := [5]
          best_header_hash := 0
          hashes_gc_threshold := some 10
          finalized_gc_threshold := some 20
          num_confirmations := some 1
          canonical_header_hashes := []
          all_header_hashes := []
          headers := []
          infos := []
          trusted_signer := some 9 } := rfl

/-- C2 (amended): when the genesis header payload cannot be decoded,
`init` (on fresh storage with a signed origin) panics via `unwrap`
instead of returning a `MalformedGenesis` error, and at the panic point
the scalar fields (`dagsStartEpoch`, `dagsMerkleRoots`, the two GC
thresholds, `numConfirmations`, `trustedSigner`) have already been
written — the failing call is not all-or-nothing at the pallet level. -/
theorem init_malformed_genesis_panics (who e h f n : Nat)
    (roots payload : List Nat) (ts : Option Nat) (s : ChainState)
    (h1 : s.dags_start_epoch = none) (h2 : s.hashes_gc_threshold = none)
    (h3 : s.finalized_gc_threshold = none) (hdec : rlpDecode payload = none) :
    init (some who) e roots payload h f n ts s =
      .panic
        { s with
          dags_start_epoch := some e
          dags_merkle_roots := roots
          hashes_gc_threshold := some h
          finalized_gc_threshold := some f
          num_confirmations := some n
          trusted_signer := ts } := by
  simp [init, h1, h2, h3, hdec]

/-- C2 (witness). -/
theorem init_malformed_genesis_panics_witness :
    (initialChainState.dags_start_epoch = none ∧
      initialChainState.hashes_gc_threshold = none ∧
      initialChainState.finalized_gc_threshold = none ∧
      rlpDecode [1, 2] = none) ∧
    init (some 2) 4 [8] [1, 2] 11 22 3 none initialChainState =
      .panic
        { initialChainState with
          dags_start_epoch := some 4
          dags_merkle_roots := [8]
          hashes_gc_threshold := some 11
          finalized_gc_threshold := some 22
          num_confirmations := some 3
          trusted_signer := none } :=
  ⟨⟨rfl, rfl, rfl, rfl⟩,
    init_malformed_genesis_panics 2 4 11 22 3 [8] [1, 2] none initialChainState
      rfl rfl rfl rfl⟩

/-- C3 (confirmed): a signed `init` call on storage where any of
`dagsStartEpoch`, `hashesGCThreshold`, `finalizedGCThreshold` is already
set fails with the `Already initialized` dispatch error, and the storage
it leaves behind is exactly the input storage — nothing is mutated. -/
theorem init_second_call_rejected (who e h f n : Nat)
    (roots payload : List Nat) (ts : Option Nat) (s : ChainState)
    (hinit : s.dags_start_epoch.isSome = true ∨ s.hashes_gc_threshold.isSome = true ∨
      s.finalized_gc_threshold.isSome = true) :
    init (some who) e roots payload h f n ts s = .err "Already initialized" s := by
  cases hd : s.dags_start_epoch.isSome <;>
    cases hh : s.hashes_gc_threshold.isSome <;>
      cases hf : s.finalized_gc_threshold.isSome <;>
        simp_all [init]

/-- C3 (witness): a second call after a successful first call is
rejected without mutation. -/
theorem init_second_call_rejected_witness :
    (({ initialChainState with dags_start_epoch := some 0 } : ChainState).dags_start_epoch.isSome = true ∨
      ({ initialChainState with dags_start_epoch := some 0 } : ChainState).hashes_gc_threshold.isSome = true ∨
      ({ initialChainState with dags_start_epoch := some 0 } : ChainState).finalized_gc_threshold.isSome = true) ∧
    init (some 1) 1 [] [] 2 3 4 none { initialChainState with dags_start_epoch := some 0 } =
      .err "Already initialized" { initialChainState with dags_start_epoch := some 0 } :=
  ⟨Or.inl rfl,
    init_second_call_rejected 1 1 2 3 4 [] [] none
      { initialChainState with dags_start_epoch := some 0 } (Or.inl rfl)⟩

/-- C4 (confirmed): a successful `init` with a decodable genesis header
sets every ChainState scalar field (`dagsStartEpoch`, `dagsMerkleRoots`,
`hashesGCThreshold`, `finalizedGCThreshold`, `numConfirmations`,
`trustedSigner`), inserts the genesis hash as the sole entry of
`canonicalHeaderHashes` and `allHeaderHashes` at the genesis height,
inserts the genesis `Header` and its `HeaderInfo` under its hash, and
sets `bestHeaderHash` to that hash. -/
theorem init_success_effects (who e h f n : Nat)
    (roots payload : List Nat) (hdr : EthHeader) (ts : Option Nat) (s : ChainState)
    (h1 : s.dags_start_epoch = none) (h2 : s.hashes_gc_threshold = none)
    (h3 : s.finalized_gc_threshold = none) (hdec : rlpDecode payload = some hdr) :
    ∃ s2, init (some who) e roots payload h f n ts s = .ok s2 ∧
      s2.dags_start_epoch = some e ∧
      s2.dags_merkle_roots = roots ∧
      s2.hashes_gc_threshold = some h ∧
      s2.finalized_gc_threshold = some f ∧
      s2.num_confirmations = some n ∧
      s2.trusted_signer = ts ∧
      s2.best_header_hash = ethHash hdr ∧
      mapGet s2.canonical_header_hashes hdr.number = some (ethHash hdr) ∧
      mapGet s2.all_header_hashes hdr.number = some [ethHash hdr] ∧
      mapGet s2.headers (ethHash hdr) = some hdr ∧
      mapGet s2.infos (ethHash hdr) =
        some ⟨hdr.difficulty, hdr.parent_hash, hdr.number⟩ := by
  have hrun : init (some who) e roots payload h f n ts s =
      .ok
        { s with
          dags_start_epoch := some e
          dags_merkle_roots := roots
          hashes_gc_threshold := some h
          finalized_gc_threshold := some f
          num_confirmations := some n
          trusted_signer := ts
          best_header_hash := ethHash hdr
          all_header_hashes := mapInsert s.all_header_hashes hdr.number [ethHash hdr]
          canonical_header_hashes := mapInsert s.canonical_header_hashes hdr.number (ethHash hdr)
          headers := mapInsert s.headers (ethHash hdr) hdr
          infos := mapInsert s.infos (ethHash hdr)
            ⟨hdr.difficulty, hdr.parent_hash, hdr.number⟩ } := by
    simp [init, h1, h2, h3, hdec]
  exact ⟨_, hrun, rfl, rfl, rfl, rfl, rfl, rfl, rfl,
    mapGet_mapInsert_self s.canonical_header_hashes hdr.number (ethHash hdr),
    mapGet_mapInsert_self s.all_header_hashes hdr.number [ethHash hdr],
    mapGet_mapInsert_self s.headers (ethHash hdr) hdr,
    mapGet_mapInsert_self s.infos (ethHash hdr) ⟨hdr.difficulty, hdr.parent_hash, hdr.number⟩⟩

/-- C4 (witness). -/
theorem init_success_effects_witness :
    (initialChainState.dags_start_epoch = none ∧
      initialChainState.hashes_gc_threshold = none ∧
      initialChainState.finalized_gc_threshold = none ∧
      rlpDecode [0, 100, 0, 7] = some ⟨0, 100, 0, 7⟩) ∧
    (∃ s2, init (some 1) 2 [9] [0, 100, 0, 7] 10 20 5 (some 4) initialChainState = .ok s2 ∧
      s2.dags_start_epoch = some 2 ∧
      s2.dags_merkle_roots = [9] ∧
      s2.hashes_gc_threshold = some 10 ∧
      s2.finalized_gc_threshold = some 20 ∧
      s2.num_confirmations = some 5 ∧
      s2.trusted_signer = some 4 ∧
      s2.best_header_hash = ethHash ⟨0, 100, 0, 7⟩ ∧
      mapGet s2.canonical_header_hashes (EthHeader.mk 0 100 0 7).number =
        some (ethHash ⟨0, 100, 0, 7⟩) ∧
      mapGet s2.all_header_hashes (EthHeader.mk 0 100 0 7).number =
        some [ethHash ⟨0, 100, 0, 7⟩] ∧
      mapGet s2.headers (ethHash ⟨0, 100, 0, 7⟩) = some ⟨0, 100, 0, 7⟩ ∧
      mapGet s2.infos (ethHash ⟨0, 100, 0, 7⟩) =
        some ⟨(EthHeader.mk 0 100 0 7).difficulty, (EthHeader.mk 0 100 0 7).parent_hash,
          (EthHeader.mk 0 100 0 7).number⟩) :=
  ⟨⟨rfl, rfl, rfl, rfl⟩,
    init_success_effects 1 2 10 20 5 [9] [0, 100, 0, 7] ⟨0, 100, 0, 7⟩ (some 4)
      initialChainState rfl rfl rfl rfl⟩

/-- C5 (counterexample): the epoch-root lookup does not produce a
`MissingEpochRoot` rejection on out-of-range epochs: with
`dagsStartEpoch = 5` and an empty `dagsMerkleRoots`, the lookup at epoch
`3` (below the start epoch: `u64` subtraction underflow) and at epoch
`7` (index out of range of the roots vector) both end in an unguarded
panic. -/
theorem dag_merkle_root_counterexample :
    dag_merkle_root { initialChainState with dags_start_epoch := some 5 } 3 =
      .panic ∧
    dag_merkle_root { initialChainState with dags_start_epoch := some 5 } 7 =
      .panic := by
  constructor <;> rfl

/-- C5 (amended): for every epoch below `dagsStartEpoch`, or whose index
`epoch - dagsStartEpoch` is out of range of the stored `dagsMerkleRoots`
sequence, `dag_merkle_root` ends in an unguarded panic (underflowing
subtraction or out-of-bounds `Vec` indexing); no `MissingEpochRoot`
rejection exists in the code. When `dagsStartEpoch` is unset it returns
the zero root instead. -/
theorem dag_merkle_root_out_of_range_panics (s : ChainState) (epoch ep : Nat)
    (hep : s.dags_start_epoch = some ep)
    (hout : epoch < ep ∨ s.dags_merkle_roots.length ≤ epoch - ep) :
    dag_merkle_root s epoch = .panic := by
  unfold dag_merkle_root
  rw [hep]
  rcases hout with hlt | hge
  · simp [hlt]
  · have : ¬ epoch - ep < s.dags_merkle_roots.length := by omega
    simp [this]

/-- C5 (witness). -/
theorem dag_merkle_root_out_of_range_panics_witness :
    (({ initialChainState with dags_start_epoch := some 5, dags_merkle_roots := [1] } : ChainState).dags_start_epoch = some 5 ∧
      (7 < 5 ∨ ({ initialChainState with dags_start_epoch := some 5, dags_merkle_roots := [1] } : ChainState).dags_merkle_roots.length ≤ 7 - 5)) ∧
    dag_merkle_root { initialChainState with dags_start_epoch := some 5, dags_merkle_roots := [1] } 7 = .panic :=
  ⟨⟨rfl, Or.inr (by decide)⟩,
    dag_merkle_root_out_of_range_panics
      { initialChainState with dags_start_epoch := some 5, dags_merkle_roots := [1] }
      7 5 rfl (Or.inr (by decide))⟩

/-- C6 (counterexample): a fetch response that parses but lacks a
`result` object (here the empty JSON object) does not make the relay
cycle abort, log and return normally: the per-tick `offchain_worker` run
panics (the `block.unwrap()` in `fetch_block`, propagated through
`Self::fetch_block().unwrap()`). -/
theorem offchain_worker_failure_counterexample :
    offchain_worker (some (Json.object [])) = .panic := rfl

/-- C6 (amended): every fetch/decode failure in the relay cycle —
unparseable body, missing or non-object `result`, missing or non-string
`number`, non-hex or odd-length number value (all of which make
`fetch_block_decode` panic) — makes the per-tick `offchain_worker` run
panic rather than return normally for a retry on the next tick. -/
theorem offchain_worker_fetch_failure_panics (parsed : Option Json)
    (hfail : fetch_block_decode parsed = .panic) :
    offchain_worker parsed = .panic := by
  unfold offchain_worker
  rw [hfail]

/-- C6 (witness): an unparseable body. -/
theorem offchain_worker_fetch_failure_panics_witness :
    fetch_block_decode none = .panic ∧ offchain_worker none = .panic :=
  ⟨rfl, offchain_worker_fetch_failure_panics none rfl⟩

/-- C7 (counterexample): a well-formed response in the claim's sense —
`result.number` is `"0x"` followed by hex digits — whose digit count is
odd (`"0x123"`) is not decoded to its big-endian value: `hex::decode`
fails on the odd length and the `.unwrap()` panics, so the decoding
never completes. -/
theorem fetch_block_odd_hex_counterexample :
    fetch_block_decode (some (wellFormedResp ['0', 'x', '1', '2', '3'])) = .panic :=
  rfl

/-- C7 (amended): for every well-formed fetch response whose `result`
object contains the number string `"0x"` followed by an even count of at
most 64 hex digits, the relay's decoding extracts the `number` field,
drops the `0x` two-char lead, hex-decodes the digit pairs to bytes, and
returns the bytes' big-endian value truncated to its low 32 bits (see
C10); an odd digit count instead panics in the `hex::decode` unwrap, and
more than 64 digits panic in `from_big_endian`'s length assertion. -/
theorem fetch_block_decodes_hex_number (ds : List Char)
    (hhex : ds.all isHexDigitChar = true)
    (heven : ds.length % 2 = 0) (hlen : ds.length ≤ 64) :
    fetch_block_decode (some (wellFormedResp ('0' :: 'x' :: ds))) =
      .ok (hexCharsVal ds % 2 ^ 32) :=
  fetch_decode_wellFormed ds hhex heven hlen

/-- C7 (witness): `"0x12"` decodes to 18. -/
theorem fetch_block_decodes_hex_number_witness :
    (['1', '2'].all isHexDigitChar = true ∧ ['1', '2'].length % 2 = 0 ∧
      ['1', '2'].length ≤ 64) ∧
    fetch_block_decode (some (wellFormedResp ('0' :: 'x' :: ['1', '2']))) =
      .ok (hexCharsVal ['1', '2'] % 2 ^ 32) :=
  ⟨⟨by decide, by decide, by decide⟩,
    fetch_block_decodes_hex_number ['1', '2'] (by decide) (by decide) (by decide)⟩

/-- C8 (counterexample): the transaction-admission logic enforces no
`unsignedInterval` cooldown: `unsignedCooldownRespected` fails already
for an interval of 5 blocks, because `validate_unsigned` ignores its
arguments and reads no storage, so submissions one block apart are both
accepted. -/
theorem validate_unsigned_no_cooldown_counterexample :
    ¬ unsignedCooldownRespected 1048576 5 := by
  intro hcool
  have h2 := hcool 0 1 .inBlock .inBlock (.init 0 [] [] 0 0 0 none)
    (.init 0 [] [] 0 0 0 none) (by decide) (by decide) rfl
  exact absurd h2 (by decide)

/-- C8 (amended): `validate_unsigned` is unconditional: for every
priority configuration, transaction source and call it returns the same
fixed `ValidTransaction` (the configured priority, no requires/provides
tags, longevity 5, propagate) — in particular no cooldown, interval or
storage check is applied to unsigned submissions. -/
theorem validate_unsigned_unconditional (p : Nat) (src : TransactionSource)
    (c : WorkerCall) :
    validate_unsigned p src c =
      .ok { priority := p, requires := [], provides := [], longevity := 5, propagate := true } :=
  rfl

/-- C9 (code bug): the claim states the target behavior — every wait on
the pending HTTP response carries an explicit deadline — but the code's
single wait (`pending.wait()`, `lib.rs` line 290, under the comment
`wait indefinitely for response (TODO: timeout)`) passes no deadline:
the modelled deadline argument of the fetch step's wait is `none`. -/
theorem fetch_block_wait_unbounded : fetch_block_wait_deadline = none := rfl

/-- C10 (confirmed): `fetch_block` truncates the decoded external block
number to its low 32 bits: for every decodable well-formed response
(even count of at most 64 hex digits) whose number is at least `2^32`,
the returned value is that number modulo `2^32`, strictly below the
actual number — the high-order bytes are silently lost. -/
theorem fetch_block_truncates_to_low32 (ds : List Char)
    (hhex : ds.all isHexDigitChar = true)
    (heven : ds.length % 2 = 0) (hlen : ds.length ≤ 64)
    (hbig : 2 ^ 32 ≤ hexCharsVal ds) :
    fetch_block_decode (some (wellFormedResp ('0' :: 'x' :: ds))) =
      .ok (hexCharsVal ds % 2 ^ 32) ∧
    hexCharsVal ds % 2 ^ 32 < hexCharsVal ds := by
  refine ⟨fetch_decode_wellFormed ds hhex heven hlen, ?_⟩
  calc hexCharsVal ds % 2 ^ 32 < 2 ^ 32 := Nat.mod_lt _ (by positivity)
    _ ≤ hexCharsVal ds := hbig

/-- C10 (witness): `"0x0100000000"` (the number `2^32`) comes back as 0. -/
theorem fetch_block_truncates_to_low32_witness :
    (['0', '1', '0', '0', '0', '0', '0', '0', '0', '0'].all isHexDigitChar = true ∧
      ['0', '1', '0', '0', '0', '0', '0', '0', '0', '0'].length % 2 = 0 ∧
      ['0', '1', '0', '0', '0', '0', '0', '0', '0', '0'].length ≤ 64 ∧
      2 ^ 32 ≤ hexCharsVal ['0', '1', '0', '0', '0', '0', '0', '0', '0', '0']) ∧
    (fetch_block_decode
        (some (wellFormedResp ('0' :: 'x' :: ['0', '1', '0', '0', '0', '0', '0', '0', '0', '0']))) =
      .ok (hexCharsVal ['0', '1', '0', '0', '0', '0', '0', '0', '0', '0'] % 2 ^ 32) ∧
    hexCharsVal ['0', '1', '0', '0', '0', '0', '0', '0', '0', '0'] % 2 ^ 32 <
      hexCharsVal ['0', '1', '0', '0', '0', '0', '0', '0', '0', '0']) :=
  ⟨⟨by decide, by decide, by decide, by decide⟩,
    fetch_block_truncates_to_low32 ['0', '1', '0', '0', '0', '0', '0', '0', '0', '0']
      (by decide) (by decide) (by decide) (by decide)⟩

end RainbowBridge
